import Mathlib

/-
Verification of `src/python/ray/rllib/policy/tf_policy_template.py`.

The file under verification is a factory (`build_tf_policy`) that dynamically
assembles a policy class from optional callback functions, a mixin list and a
fixed `DynamicTFPolicy` base.  The embedding below translates the factory, the
methods of the produced class, its constructor (as an explicit event trace),
and the mixin/method-resolution chain into Lean.  Types that only flow through
the factory (tensors, optimizers, batches, opaque callbacks) are abstract
parameters collected in a signature structure `Sig`; Python dicts are
association lists with first-match lookup.
-/

set_option autoImplicit false
set_option linter.unusedVariables false

/-- Abstract types appearing in the factory's callback signatures.  The factory
never inspects values of these types; it only stores and forwards them. -/
structure Sig : Type 1 where
  Obs : Type
  Act : Type
  CV : Type
  Batch : Type
  OtherBatches : Type
  Episode : Type
  Opt : Type
  Loss : Type
  Grad : Type
  Fetch : Type
  Pol : Type
  Method : Type
  LossFn : Type
  StatsFn : Type
  UpdateOpsFn : Type
  GradStatsFn : Type
  BeforeInit : Type
  BeforeLossInit : Type
  AfterInit : Type
  ActionSampler : Type
  BatchDivReq : Type
  ExistingInputs : Type

/-- A Python dict, modelled as an association list with first-match lookup.
Entry order of a Python dict is not modelled; all claims are about lookup. -/
abbrev Dict (α : Type) := List (String × α)

/-- First-match lookup in an association list (Python `d[k]` / `k in d`). -/
def dlookup {α : Type} : Dict α → String → Option α
  | [], _ => none
  | (k1, v) :: rest, k => if k1 = k then some v else dlookup rest k

/-- Python `dict(a, **b)`: the union of `a` and `b` in which keys of `b` take
precedence.  Under first-match `dlookup` this is realised by putting `b`'s
entries first. -/
def pyDictMerge {α : Type} (a b : Dict α) : Dict α := b ++ a

/-- A value stored in a TF fetch dict: either an opaque tensor fetch or a
nested dict (the shape `extra_compute_grad_fetches` needs, since it inserts
the literal `{LEARNER_STATS_KEY: {}}` entry). -/
inductive FetchVal (τ : Type) where
  | tensor : τ → FetchVal τ
  | dict : Dict τ → FetchVal τ
deriving DecidableEq

/-- The state of a constructed policy instance: its merged config, the
`_extra_action_fetches` attribute set during init, and the rest of the
instance (everything the base classes set up), kept abstract. -/
structure PolicyState (S : Sig) where
  config : Dict S.CV
  extraActionFetches : Dict S.Fetch
  core : S.Pol

/-- A method value in a class's method table: either a method contributed by a
mixin or a base class (opaque), or one of the methods defined in the body of
the `policy_cls` produced by the factory, tagged by its name. -/
inductive MethodV (S : Sig) where
  | user : S.Method → MethodV S
  | tmpl : String → MethodV S

instance {S : Sig} [DecidableEq S.Method] : DecidableEq (MethodV S) := fun a b =>
  match a, b with
  | MethodV.user x, MethodV.user y =>
    if h : x = y then isTrue (by rw [h]) else isFalse (by intro hc; cases hc; exact h rfl)
  | MethodV.user x, MethodV.tmpl m => isFalse (by intro hc; cases hc)
  | MethodV.tmpl n, MethodV.user y => isFalse (by intro hc; cases hc)
  | MethodV.tmpl n, MethodV.tmpl m =>
    if h : n = m then isTrue (by rw [h]) else isFalse (by intro hc; cases hc; exact h rfl)

/-- The arguments of `build_tf_policy`, one field per Python parameter
(source lines 12-31).  Optional callbacks are `Option`s; callbacks whose body
the factory never calls itself are opaque types from `Sig`.  A mixin is its
method table; `mixins=None` is modelled as the empty list (the `while mixins`
loop treats them identically). -/
structure FactoryArgs (S : Sig) where
  name : String
  loss_fn : S.LossFn
  get_default_config : Option (Unit → Dict S.CV)
  postprocess_fn :
    Option (PolicyState S → S.Batch → Option S.OtherBatches → Option S.Episode → S.Batch)
  stats_fn : Option S.StatsFn
  update_ops_fn : Option S.UpdateOpsFn
  optimizer_fn : Option (PolicyState S → Dict S.CV → S.Opt)
  gradients_fn : Option (PolicyState S → S.Opt → S.Loss → S.Grad)
  grad_stats_fn : Option S.GradStatsFn
  extra_action_fetches_fn : Option (PolicyState S → Dict S.Fetch)
  extra_action_feed_fn : Option (PolicyState S → Dict S.Fetch)
  extra_learn_fetches_fn : Option (PolicyState S → Dict (FetchVal S.Fetch))
  extra_learn_feed_fn : Option (PolicyState S → Dict S.Fetch)
  before_init : Option S.BeforeInit
  before_loss_init : Option S.BeforeLossInit
  after_init : Option S.AfterInit
  make_action_sampler : Option S.ActionSampler
  mixins : List (Dict (MethodV S))
  get_batch_divisibility_req : Option S.BatchDivReq
  obs_include_prev_action_reward : Bool

/-- Modelled from the spec: the default behaviors of the base classes
(`TFPolicy`, `Policy`, `DynamicTFPolicy` live outside src/).  The source calls
`TFPolicy.optimizer(self)` etc. by name but their bodies are unknown here, so
they are abstract parameters; `dynamic_core` abstracts everything
`DynamicTFPolicy.__init__` sets up on the instance. -/
structure BaseBehavior (S : Sig) where
  optimizer : PolicyState S → S.Opt
  gradients : PolicyState S → S.Opt → S.Loss → S.Grad
  extra_compute_action_fetches : PolicyState S → Dict S.Fetch
  extra_compute_action_feed_dict : PolicyState S → Dict S.Fetch
  extra_compute_grad_fetches : PolicyState S → Dict (FetchVal S.Fetch)
  extra_compute_grad_feed_dict : PolicyState S → Dict S.Fetch
  dynamic_core : S.Obs → S.Act → Dict S.CV → Option S.ExistingInputs → S.Pol

/-- Modelled from the spec: `LEARNER_STATS_KEY` is imported from
`ray.rllib.policy.policy` (not under src/); it is the distinguished key under
which learner statistics are returned.  Its concrete string is irrelevant to
every claim. -/
def LEARNER_STATS_KEY : String := "learner_stats"

/-- Modelled from the spec: `Policy.postprocess_trajectory` (not under src/)
is the base class's default trajectory postprocessing, which returns the
sample batch unchanged; the spec states that absent-callback cases fall back
to exactly this base default. -/
def Policy.postprocess_trajectory (S : Sig) (self : PolicyState S) (sample_batch : S.Batch)
    (other_agent_batches : Option S.OtherBatches) (episode : Option S.Episode) : S.Batch :=
  sample_batch

/-- Events emitted during `policy_cls.__init__`, recording which hooks run,
in which order, and with which (merged) config. -/
inductive InitEvent (S : Sig) where
  | beforeInitCall (config : Dict S.CV)
  | baseCoreSetup (config : Dict S.CV)
  | beforeLossInitCall (config : Dict S.CV)
  | setExtraActionFetches (v : Dict S.Fetch)
  | baseLossInit
  | afterInitCall (config : Dict S.CV)

/-- True exactly on the event recording an assignment to
`self._extra_action_fetches`. -/
def InitEvent.isSetFetches {S : Sig} : InitEvent S → Bool
  | InitEvent.setExtraActionFetches _ => true
  | _ => false

/-- Source lines 106-107: the config actually used by the constructor —
`dict(get_default_config(), **config)` when a default-config getter was
given, the caller's config unchanged otherwise. -/
def effective_config {S : Sig} (args : FactoryArgs S) (config : Dict S.CV) : Dict S.CV :=
  match args.get_default_config with
  | some gdc => pyDictMerge (gdc ()) config
  | none => config

/-- Source lines 116-119: the value stored into `self._extra_action_fetches`
by the wrapper — `{}` when `extra_action_fetches_fn` is unset, else that
function's result on the instance being constructed. -/
def wrapper_fetches {S : Sig} (args : FactoryArgs S) (policy : PolicyState S) : Dict S.Fetch :=
  match args.extra_action_fetches_fn with
  | none => []
  | some f => f policy

/-- The instance state right after the base class's core setup, before the
`before_loss_init` wrapper runs: config set, `_extra_action_fetches` not yet
assigned (modelled as `[]`), everything else abstracted into `dynamic_core`. -/
def init_state0 {S : Sig} (B : BaseBehavior S) (obs : S.Obs) (act : S.Act) (config : Dict S.CV)
    (existing_inputs : Option S.ExistingInputs) : PolicyState S :=
  { config := config
    extraActionFetches := []
    core := B.dynamic_core obs act config existing_inputs }

/-- Source lines 112-119: `before_loss_init_wrapper` — runs `before_loss_init`
when provided, then assigns `self._extra_action_fetches`.  Returns the updated
instance state and the events it emitted. -/
def before_loss_init_wrapper {S : Sig} (args : FactoryArgs S) (policy : PolicyState S)
    (obs : S.Obs) (act : S.Act) (config : Dict S.CV) :
    PolicyState S × List (InitEvent S) :=
  let ev1 : List (InitEvent S) :=
    match args.before_loss_init with
    | some _ => [InitEvent.beforeLossInitCall config]
    | none => []
  let v : Dict S.Fetch := wrapper_fetches args policy
  ({ policy with extraActionFetches := v }, ev1 ++ [InitEvent.setExtraActionFetches v])

/-- Modelled from the spec: `DynamicTFPolicy.__init__` (not under src/)
performs core initialization with the forwarded loss/stats/update-ops
callbacks, invokes the `before_loss_init` callback it is given with
`(policy, obs_space, action_space, config)`, then performs loss
initialization.  The forwarded callbacks are opaque; their effect on the
instance is abstracted into `BaseBehavior.dynamic_core`. -/
def DynamicTFPolicy.tf_init {S : Sig} (B : BaseBehavior S) (obs : S.Obs) (act : S.Act)
    (config : Dict S.CV) (loss_fn : S.LossFn) (stats_fn : Option S.StatsFn)
    (grad_stats_fn : Option S.GradStatsFn) (update_ops_fn : Option S.UpdateOpsFn)
    (before_loss_init_cb :
      PolicyState S → S.Obs → S.Act → Dict S.CV → PolicyState S × List (InitEvent S))
    (make_action_sampler : Option S.ActionSampler)
    (existing_inputs : Option S.ExistingInputs)
    (obs_include_prev_action_reward : Bool) :
    PolicyState S × List (InitEvent S) :=
  let s0 : PolicyState S := init_state0 B obs act config existing_inputs
  let r := before_loss_init_cb s0 obs act config
  (r.1, InitEvent.baseCoreSetup config :: (r.2 ++ [InitEvent.baseLossInit]))

namespace policy_cls

/-- Source lines 101-136: `policy_cls.__init__` — merge the default config,
run `before_init` if provided, delegate to `DynamicTFPolicy.__init__` passing
`before_loss_init_wrapper`, then run `after_init` if provided.  Returns the
constructed instance state and the trace of init events. -/
def init {S : Sig} (args : FactoryArgs S) (B : BaseBehavior S) (obs : S.Obs) (act : S.Act)
    (config : Dict S.CV) (existing_inputs : Option S.ExistingInputs) :
    PolicyState S × List (InitEvent S) :=
  let config2 : Dict S.CV := effective_config args config
  let ev1 : List (InitEvent S) :=
    match args.before_init with
    | some _ => [InitEvent.beforeInitCall config2]
    | none => []
  let r := DynamicTFPolicy.tf_init B obs act config2 args.loss_fn args.stats_fn
    args.grad_stats_fn args.update_ops_fn (before_loss_init_wrapper args)
    args.make_action_sampler existing_inputs args.obs_include_prev_action_reward
  let ev3 : List (InitEvent S) :=
    match args.after_init with
    | some _ => [InitEvent.afterInitCall config2]
    | none => []
  (r.1, ev1 ++ r.2 ++ ev3)

/-- Source lines 138-146: `postprocess_trajectory` — the sample batch when no
`postprocess_fn` was given, else that function's result.  The second
component is the instance state after the call (the body performs no
assignment). -/
def postprocess_trajectory {S : Sig} (args : FactoryArgs S) (self : PolicyState S)
    (sample_batch : S.Batch) (other_agent_batches : Option S.OtherBatches)
    (episode : Option S.Episode) : S.Batch × PolicyState S :=
  match args.postprocess_fn with
  | none => (sample_batch, self)
  | some f => (f self sample_batch other_agent_batches episode, self)

/-- Source lines 148-153: `optimizer` — `optimizer_fn(self, self.config)` when
given, else `TFPolicy.optimizer(self)`. -/
def optimizer {S : Sig} (args : FactoryArgs S) (B : BaseBehavior S) (self : PolicyState S) :
    S.Opt × PolicyState S :=
  match args.optimizer_fn with
  | some f => (f self self.config, self)
  | none => (B.optimizer self, self)

/-- Source lines 155-160: `gradients` — `gradients_fn(self, optimizer, loss)`
when given, else `TFPolicy.gradients(self, optimizer, loss)`. -/
def gradients {S : Sig} (args : FactoryArgs S) (B : BaseBehavior S) (self : PolicyState S)
    (optimizer : S.Opt) (loss : S.Loss) : S.Grad × PolicyState S :=
  match args.gradients_fn with
  | some f => (f self optimizer loss, self)
  | none => (B.gradients self optimizer loss, self)

/-- Source lines 162-166: `extra_compute_action_fetches` — always
`dict(TFPolicy.extra_compute_action_fetches(self), **self._extra_action_fetches)`. -/
def extra_compute_action_fetches {S : Sig} (B : BaseBehavior S) (self : PolicyState S) :
    Dict S.Fetch × PolicyState S :=
  (pyDictMerge (B.extra_compute_action_fetches self) self.extraActionFetches, self)

/-- Source lines 168-173: `extra_compute_action_feed_dict` — the callback's
result when given, else the base default. -/
def extra_compute_action_feed_dict {S : Sig} (args : FactoryArgs S) (B : BaseBehavior S)
    (self : PolicyState S) : Dict S.Fetch × PolicyState S :=
  match args.extra_action_feed_fn with
  | some f => (f self, self)
  | none => (B.extra_compute_action_feed_dict self, self)

/-- Source lines 175-183: `extra_compute_grad_fetches` — when
`extra_learn_fetches_fn` is given, `dict({LEARNER_STATS_KEY: {}}, **fn(self))`
(auto-adding an empty learner-stats dict); else the base default. -/
def extra_compute_grad_fetches {S : Sig} (args : FactoryArgs S) (B : BaseBehavior S)
    (self : PolicyState S) : Dict (FetchVal S.Fetch) × PolicyState S :=
  match args.extra_learn_fetches_fn with
  | some f => (pyDictMerge [(LEARNER_STATS_KEY, FetchVal.dict [])] (f self), self)
  | none => (B.extra_compute_grad_fetches self, self)

/-- Source lines 185-190: `extra_compute_grad_feed_dict` — the callback's
result when given, else the base default. -/
def extra_compute_grad_feed_dict {S : Sig} (args : FactoryArgs S) (B : BaseBehavior S)
    (self : PolicyState S) : Dict S.Fetch × PolicyState S :=
  match args.extra_learn_feed_fn with
  | some f => (f self, self)
  | none => (B.extra_compute_grad_feed_dict self, self)

end policy_cls

/-- Source lines 95-96: `class new_base(mixins.pop(), base): pass` — a class
with an empty body whose method resolution tries the mixin first, then the
base chain.  Modelled as the linearised method table. -/
def new_base {S : Sig} (mixin base : Dict (MethodV S)) : Dict (MethodV S) :=
  mixin ++ base

/-- Source lines 93-98, one fuel-indexed step at a time: `while mixins:` pops
the LAST element of the (caller's) mixins list and wraps it around the
accumulated base.  Returns the final base chain together with the final state
of the mixins list (the loop mutates the caller's list in place). -/
def whileMixinsAux {S : Sig} :
    Nat → List (Dict (MethodV S)) → Dict (MethodV S) →
      List (Dict (MethodV S)) × Dict (MethodV S)
  | 0, ms, base => (ms, base)
  | _ + 1, [], base => ([], base)
  | fuel + 1, m :: rest, base =>
    whileMixinsAux fuel (m :: rest).dropLast
      (new_base ((m :: rest).getLast (List.cons_ne_nil m rest)) base)

/-- The `while mixins` loop of source lines 93-98; each iteration removes one
element, so `mixins.length` steps of fuel always suffice. -/
def whileMixins {S : Sig} (ms : List (Dict (MethodV S))) (base : Dict (MethodV S)) :
    List (Dict (MethodV S)) × Dict (MethodV S) :=
  whileMixinsAux ms.length ms base

/-- The method names defined on `policy_cls` itself: its body (source lines
100-190) plus the `with_updates` attribute assigned at line 196.  These sit
first in the produced class's method resolution order. -/
def policyClsOwnNames : List String :=
  ["__init__", "postprocess_trajectory", "optimizer", "gradients",
   "extra_compute_action_fetches", "extra_compute_action_feed_dict",
   "extra_compute_grad_fetches", "extra_compute_grad_feed_dict", "with_updates"]

/-- The method table contributed by `policy_cls`'s own body. -/
def policyClsOwnTable (S : Sig) : Dict (MethodV S) :=
  policyClsOwnNames.map (fun n => (n, MethodV.tmpl n))

/-- The class returned by `build_tf_policy`: its `__name__`/`__qualname__`
attributes (source lines 197-198), its method-resolution table, the
`original_kwargs` captured by `locals().copy()` at line 91 (whose `mixins`
entry aliases the caller's list, hence holds the post-loop state), and the
post-loop state of the caller's mixins list itself. -/
structure BuiltPolicyCls (S : Sig) where
  __name__ : String
  __qualname__ : String
  methodTable : Dict (MethodV S)
  original_kwargs : FactoryArgs S
  mixinsAfter : List (Dict (MethodV S))

/-- Source lines 91-199: `build_tf_policy`.  `DynamicTFPolicyMT` is the
(abstract) resolved method table of the fixed `DynamicTFPolicy` base chain. -/
def build_tf_policy {S : Sig} (args : FactoryArgs S)
    (DynamicTFPolicyMT : Dict (MethodV S)) : BuiltPolicyCls S :=
  let r := whileMixins args.mixins DynamicTFPolicyMT
  { __name__ := args.name
    __qualname__ := args.name
    methodTable := policyClsOwnTable S ++ r.2
    original_kwargs := { args with mixins := r.1 }
    mixinsAfter := r.1 }

/-- Source lines 192-194: `with_updates(**overrides)` re-invokes the factory
on `dict(original_kwargs, **overrides)`; with an empty override set that is
`build_tf_policy(**original_kwargs)`. -/
def with_updates_empty {S : Sig} (cls : BuiltPolicyCls S)
    (DynamicTFPolicyMT : Dict (MethodV S)) : BuiltPolicyCls S :=
  build_tf_policy cls.original_kwargs DynamicTFPolicyMT

/-! ## Helper lemmas -/

theorem dlookup_append {α : Type} (a b : Dict α) (k : String) :
    dlookup (a ++ b) k =
      match dlookup a k with
      | some v => some v
      | none => dlookup b k := by
  induction a with
  | nil => simp [dlookup]
  | cons p rest ih =>
    obtain ⟨k1, v1⟩ := p
    by_cases h : k1 = k
    · simp [dlookup, h]
    · simp [dlookup, h, ih]

theorem dlookup_pyDictMerge {α : Type} (a b : Dict α) (k : String) :
    dlookup (pyDictMerge a b) k =
      match dlookup b k with
      | some v => some v
      | none => dlookup a k := by
  simp [pyDictMerge, dlookup_append]

theorem dlookup_policyClsOwnTable_eq_none {S : Sig} (nm : String)
    (h : nm ∉ policyClsOwnNames) : dlookup (policyClsOwnTable S) nm = none := by
  revert h
  simp only [policyClsOwnTable]
  generalize policyClsOwnNames = l
  intro h
  induction l with
  | nil => simp [dlookup]
  | cons x xs ih =>
    simp only [List.mem_cons, not_or] at h
    simpa [dlookup, Ne.symm h.1] using ih h.2

theorem whileMixinsAux_spec {S : Sig} :
    ∀ (fuel : Nat) (ms : List (Dict (MethodV S))) (base : Dict (MethodV S)),
      ms.length ≤ fuel →
      whileMixinsAux fuel ms base = ([], ms.foldr new_base base) := by
  intro fuel
  induction fuel with
  | zero =>
    intro ms base h
    have hms : ms = [] := List.length_eq_zero.mp (Nat.le_zero.mp h)
    subst hms
    simp [whileMixinsAux]
  | succ n ih =>
    intro ms base h
    match ms with
    | [] => simp [whileMixinsAux]
    | m :: rest =>
      have hlen : (m :: rest).dropLast.length ≤ n := by
        simp only [List.length_dropLast, List.length_cons] at *
        omega
      rw [whileMixinsAux, ih _ _ hlen]
      have hsplit := List.dropLast_append_getLast (List.cons_ne_nil m rest)
      conv_rhs => rw [← hsplit]
      rw [List.foldr_append]
      simp [List.foldr]

theorem whileMixins_spec {S : Sig} (ms : List (Dict (MethodV S))) (base : Dict (MethodV S)) :
    whileMixins ms base = ([], ms.foldr new_base base) :=
  whileMixinsAux_spec ms.length ms base (Nat.le_refl _)

theorem foldr_new_base_eq_join_append {S : Sig} (ms : List (Dict (MethodV S)))
    (base : Dict (MethodV S)) : ms.foldr new_base base = ms.flatten ++ base := by
  induction ms with
  | nil => simp
  | cons m rest ih => simp [new_base, ih]

/-! ## Concrete instantiation used by witnesses and counterexamples -/

/-- A fully concrete signature: every abstract type is `Nat`, so every
produced value can be evaluated and compared. -/
abbrev NatSig : Sig :=
  { Obs := Nat, Act := Nat, CV := Nat, Batch := Nat, OtherBatches := Nat, Episode := Nat,
    Opt := Nat, Loss := Nat, Grad := Nat, Fetch := Nat, Pol := Nat, Method := Nat,
    LossFn := Nat, StatsFn := Nat, UpdateOpsFn := Nat, GradStatsFn := Nat,
    BeforeInit := Nat, BeforeLossInit := Nat, AfterInit := Nat, ActionSampler := Nat,
    BatchDivReq := Nat, ExistingInputs := Nat }

/-- `build_tf_policy(name="TestPolicy", loss_fn=...)` with every optional
argument left at its default. -/
def natArgs : FactoryArgs NatSig :=
  { name := "TestPolicy", loss_fn := 0, get_default_config := none, postprocess_fn := none,
    stats_fn := none, update_ops_fn := none, optimizer_fn := none, gradients_fn := none,
    grad_stats_fn := none, extra_action_fetches_fn := none, extra_action_feed_fn := none,
    extra_learn_fetches_fn := none, extra_learn_feed_fn := none, before_init := none,
    before_loss_init := none, after_init := none, make_action_sampler := none, mixins := [],
    get_batch_divisibility_req := none, obs_include_prev_action_reward := true }

/-- A concrete base behavior; its action-fetch default is non-empty so that
the merge performed by `extra_compute_action_fetches` is visible. -/
def natB : BaseBehavior NatSig :=
  { optimizer := fun _ => 11
    gradients := fun _ _ _ => 12
    extra_compute_action_fetches := fun _ => [("base_fetch", 7)]
    extra_compute_action_feed_dict := fun _ => [("base_feed", 8)]
    extra_compute_grad_fetches := fun _ => [("base_grad_fetch", FetchVal.tensor 9)]
    extra_compute_grad_feed_dict := fun _ => [("base_grad_feed", 10)]
    dynamic_core := fun _ _ _ _ => 0 }

/-- A concrete constructed instance state. -/
def natSelf : PolicyState NatSig :=
  { config := [("lr", 1)], extraActionFetches := [], core := 0 }

/-! ## C2 -/

/-- C2: for every callback among `postprocess_fn`, `optimizer_fn`,
`gradients_fn`, `extra_action_feed_fn`, `extra_learn_fetches_fn` and
`extra_learn_feed_fn` that is left unset — independently, the other callbacks
being arbitrary (provided or not) — the corresponding method of the produced
class returns exactly the base class's default behavior on every input. -/
theorem unset_callbacks_use_base_defaults {S : Sig} (args : FactoryArgs S) (B : BaseBehavior S) :
    (args.postprocess_fn = none → ∀ self sb oab ep,
        (policy_cls.postprocess_trajectory args self sb oab ep).1 =
          Policy.postprocess_trajectory S self sb oab ep) ∧
    (args.optimizer_fn = none → ∀ self,
        (policy_cls.optimizer args B self).1 = B.optimizer self) ∧
    (args.gradients_fn = none → ∀ self opt loss,
        (policy_cls.gradients args B self opt loss).1 = B.gradients self opt loss) ∧
    (args.extra_action_feed_fn = none → ∀ self,
        (policy_cls.extra_compute_action_feed_dict args B self).1 =
          B.extra_compute_action_feed_dict self) ∧
    (args.extra_learn_fetches_fn = none → ∀ self,
        (policy_cls.extra_compute_grad_fetches args B self).1 =
          B.extra_compute_grad_fetches self) ∧
    (args.extra_learn_feed_fn = none → ∀ self,
        (policy_cls.extra_compute_grad_feed_dict args B self).1 =
          B.extra_compute_grad_feed_dict self) := by
  refine ⟨?_, ?_, ?_, ?_, ?_, ?_⟩ <;> intros
  all_goals
    simp_all [policy_cls.postprocess_trajectory, policy_cls.optimizer, policy_cls.gradients,
      policy_cls.extra_compute_action_feed_dict, policy_cls.extra_compute_grad_fetches,
      policy_cls.extra_compute_grad_feed_dict, Policy.postprocess_trajectory]

/-- Factory arguments in which `postprocess_fn` is provided while the other
callbacks stay unset — a mixed configuration. -/
def c2Args : FactoryArgs NatSig :=
  { natArgs with postprocess_fn := some (fun _ sb _ _ => sb + 1) }

/-- C2 witness: in a configuration where `postprocess_fn` IS provided, the
unset `optimizer_fn` still makes `optimizer` return the base default on a
concrete instance. -/
theorem unset_callbacks_use_base_defaults_witness :
    (policy_cls.optimizer c2Args natB natSelf).1 = natB.optimizer natSelf :=
  (unset_callbacks_use_base_defaults c2Args natB).2.1 rfl natSelf

/-! ## C3 -/

/-- Factory arguments whose `extra_learn_fetches_fn` is provided and returns
the empty dict. -/
def c3Args : FactoryArgs NatSig :=
  { natArgs with extra_learn_fetches_fn := some (fun _ => []) }

/-- C3 counterexample: `extra_learn_fetches_fn` is provided and returns `{}`,
yet `extra_compute_grad_fetches` returns `{LEARNER_STATS_KEY: {}}`, not the
callback's result — the method adds an entry the callback did not produce. -/
theorem provided_callback_result_transformed :
    (policy_cls.extra_compute_grad_fetches c3Args natB natSelf).1 ≠
      (fun _ => ([] : Dict (FetchVal NatSig.Fetch))) natSelf := by
  simp [policy_cls.extra_compute_grad_fetches, c3Args, natArgs, pyDictMerge]

/-- C3 (amended): for `postprocess_fn`, `optimizer_fn`, `gradients_fn`,
`extra_action_feed_fn` and `extra_learn_feed_fn` the produced method returns
exactly the provided callback's result; for `extra_learn_fetches_fn` it
returns the callback's result with `LEARNER_STATS_KEY` defaulted to the empty
dict; and `extra_compute_action_fetches` always returns the base class's
fetches updated with the stored init-time snapshot `_extra_action_fetches`,
not a bare callback result. -/
theorem provided_callbacks_dispatch {S : Sig} (args : FactoryArgs S) (B : BaseBehavior S) :
    (∀ f, args.postprocess_fn = some f → ∀ self sb oab ep,
        (policy_cls.postprocess_trajectory args self sb oab ep).1 = f self sb oab ep) ∧
    (∀ f, args.optimizer_fn = some f → ∀ self,
        (policy_cls.optimizer args B self).1 = f self self.config) ∧
    (∀ f, args.gradients_fn = some f → ∀ self opt loss,
        (policy_cls.gradients args B self opt loss).1 = f self opt loss) ∧
    (∀ f, args.extra_action_feed_fn = some f → ∀ self,
        (policy_cls.extra_compute_action_feed_dict args B self).1 = f self) ∧
    (∀ f, args.extra_learn_feed_fn = some f → ∀ self,
        (policy_cls.extra_compute_grad_feed_dict args B self).1 = f self) ∧
    (∀ f, args.extra_learn_fetches_fn = some f → ∀ self,
        (policy_cls.extra_compute_grad_fetches args B self).1 =
          pyDictMerge [(LEARNER_STATS_KEY, FetchVal.dict [])] (f self)) ∧
    (∀ self, (policy_cls.extra_compute_action_fetches B self).1 =
        pyDictMerge (B.extra_compute_action_fetches self) self.extraActionFetches) := by
  refine ⟨?_, ?_, ?_, ?_, ?_, ?_, ?_⟩ <;> intros
  all_goals
    simp_all [policy_cls.postprocess_trajectory, policy_cls.optimizer, policy_cls.gradients,
      policy_cls.extra_compute_action_feed_dict, policy_cls.extra_compute_grad_feed_dict,
      policy_cls.extra_compute_grad_fetches, policy_cls.extra_compute_action_fetches]

/-- C3 witness: the amended dispatch evaluated at a concrete provided
`extra_learn_fetches_fn`. -/
theorem provided_callbacks_dispatch_witness :
    (policy_cls.extra_compute_grad_fetches c3Args natB natSelf).1 =
      pyDictMerge [(LEARNER_STATS_KEY, FetchVal.dict [])] [] :=
  (provided_callbacks_dispatch c3Args natB).2.2.2.2.2.1 (fun _ => []) rfl natSelf

/-! ## C4 -/

theorem init_config_eq_effective {S : Sig} (args : FactoryArgs S) (B : BaseBehavior S)
    (obs : S.Obs) (act : S.Act) (config : Dict S.CV) (ei : Option S.ExistingInputs) :
    (policy_cls.init args B obs act config ei).1.config = effective_config args config := rfl

/-- C4: when `get_default_config` is provided, the config used by the policy
is the default config merged with the caller's config, caller keys taking
precedence; when it is not provided, the caller's config is used unchanged. -/
theorem init_config_merges_defaults {S : Sig} (args : FactoryArgs S) (B : BaseBehavior S)
    (obs : S.Obs) (act : S.Act) (config : Dict S.CV) (ei : Option S.ExistingInputs) :
    (args.get_default_config = none →
      (policy_cls.init args B obs act config ei).1.config = config) ∧
    (∀ gdc, args.get_default_config = some gdc →
      (policy_cls.init args B obs act config ei).1.config = pyDictMerge (gdc ()) config ∧
      ∀ k, dlookup (policy_cls.init args B obs act config ei).1.config k =
        match dlookup config k with
        | some v => some v
        | none => dlookup (gdc ()) k) := by
  constructor
  · intro h
    rw [init_config_eq_effective]
    simp [effective_config, h]
  · intro gdc h
    constructor
    · rw [init_config_eq_effective]
      simp [effective_config, h]
    · intro k
      rw [init_config_eq_effective]
      simp only [effective_config, h, dlookup_pyDictMerge]
      cases dlookup config k <;> rfl

/-- Factory arguments with a default-config getter; its `"lr"` entry is
overridden by the caller below, its `"gamma"` entry is not. -/
def c4Args : FactoryArgs NatSig :=
  { natArgs with get_default_config := some (fun _ => [("lr", 5), ("gamma", 9)]) }

/-- C4 witness: with defaults `{lr: 5, gamma: 9}` and caller config `{lr: 1}`,
the caller's `lr` wins and the default's `gamma` is kept. -/
theorem init_config_merges_defaults_witness :
    dlookup (policy_cls.init c4Args natB 0 0 [("lr", 1)] none).1.config "lr" = some 1 ∧
    dlookup (policy_cls.init c4Args natB 0 0 [("lr", 1)] none).1.config "gamma" = some 9 := by
  have h := (init_config_merges_defaults c4Args natB 0 0 [("lr", 1)] none).2
    (fun _ => [("lr", 5), ("gamma", 9)]) rfl
  refine ⟨?_, ?_⟩
  · rw [(h.2 "lr")]
    simp [dlookup]
  · rw [(h.2 "gamma")]
    simp [dlookup]

/-! ## C5 -/

/-- C5: the constructor runs its hooks in this exact order — `before_init`
(if provided, with the merged config), then the base-class core setup, then
the `before_loss_init` wrapper (running `before_loss_init` if provided and
then populating the extra action fetches), then loss initialization, then
`after_init` (if provided); any unset hook is skipped without affecting the
others. -/
theorem init_runs_hooks_in_order {S : Sig} (args : FactoryArgs S) (B : BaseBehavior S)
    (obs : S.Obs) (act : S.Act) (config : Dict S.CV) (ei : Option S.ExistingInputs) :
    (policy_cls.init args B obs act config ei).2 =
      (match args.before_init with
        | some _ => [InitEvent.beforeInitCall (effective_config args config)]
        | none => []) ++
      [InitEvent.baseCoreSetup (effective_config args config)] ++
      (match args.before_loss_init with
        | some _ => [InitEvent.beforeLossInitCall (effective_config args config)]
        | none => []) ++
      [InitEvent.setExtraActionFetches
        (wrapper_fetches args (init_state0 B obs act (effective_config args config) ei))] ++
      [InitEvent.baseLossInit] ++
      (match args.after_init with
        | some _ => [InitEvent.afterInitCall (effective_config args config)]
        | none => []) := by
  simp only [policy_cls.init, DynamicTFPolicy.tf_init, before_loss_init_wrapper]
  cases args.before_init <;> cases args.before_loss_init <;> cases args.after_init <;> simp

/-! ## C7 -/

/-- C7: during initialization the `_extra_action_fetches` attribute is
assigned exactly once — to the empty dict when `extra_action_fetches_fn` is
unset, else to that function's result — and no method of the produced class
changes the instance state afterwards. -/
theorem extra_action_fetches_assigned_once {S : Sig} (args : FactoryArgs S) (B : BaseBehavior S)
    (obs : S.Obs) (act : S.Act) (config : Dict S.CV) (ei : Option S.ExistingInputs) :
    ((policy_cls.init args B obs act config ei).2.countP
        (fun e => InitEvent.isSetFetches e) = 1) ∧
    ((policy_cls.init args B obs act config ei).1.extraActionFetches =
      match args.extra_action_fetches_fn with
      | none => []
      | some f => f (init_state0 B obs act (effective_config args config) ei)) ∧
    (∀ self sb oab ep, (policy_cls.postprocess_trajectory args self sb oab ep).2 = self) ∧
    (∀ self, (policy_cls.optimizer args B self).2 = self) ∧
    (∀ self opt loss, (policy_cls.gradients args B self opt loss).2 = self) ∧
    (∀ self, (policy_cls.extra_compute_action_fetches B self).2 = self) ∧
    (∀ self, (policy_cls.extra_compute_action_feed_dict args B self).2 = self) ∧
    (∀ self, (policy_cls.extra_compute_grad_fetches args B self).2 = self) ∧
    (∀ self, (policy_cls.extra_compute_grad_feed_dict args B self).2 = self) := by
  refine ⟨?_, ?_, ?_, ?_, ?_, ?_, ?_, ?_, ?_⟩
  · rw [init_runs_hooks_in_order]
    cases args.before_init <;> cases args.before_loss_init <;> cases args.after_init <;>
      simp [List.countP_append, List.countP_cons, InitEvent.isSetFetches]
  · simp only [policy_cls.init, DynamicTFPolicy.tf_init, before_loss_init_wrapper,
      wrapper_fetches]
  · intro self sb oab ep
    rcases hp : args.postprocess_fn with _ | f <;>
      simp [policy_cls.postprocess_trajectory, hp]
  · intro self
    rcases hp : args.optimizer_fn with _ | f <;> simp [policy_cls.optimizer, hp]
  · intro self opt loss
    rcases hp : args.gradients_fn with _ | f <;> simp [policy_cls.gradients, hp]
  · intro self
    rfl
  · intro self
    rcases hp : args.extra_action_feed_fn with _ | f <;>
      simp [policy_cls.extra_compute_action_feed_dict, hp]
  · intro self
    rcases hp : args.extra_learn_fetches_fn with _ | f <;>
      simp [policy_cls.extra_compute_grad_fetches, hp]
  · intro self
    rcases hp : args.extra_learn_feed_fn with _ | f <;>
      simp [policy_cls.extra_compute_grad_feed_dict, hp]

/-! ## C6 -/

/-- A mixin defining `optimizer`, the method `TFPolicy` also provides in the
`DynamicTFPolicy` base chain (the source itself calls `TFPolicy.optimizer` at
line 153). -/
def c6Mixin : Dict (MethodV NatSig) := [("optimizer", MethodV.user 1)]

/-- The resolved method table of the `DynamicTFPolicy` base chain for the C6
counterexample: it defines `optimizer` (via `TFPolicy`). -/
def c6DynMT : Dict (MethodV NatSig) := [("optimizer", MethodV.user 2)]

/-- Factory arguments with the single mixin `c6Mixin`. -/
def c6Args : FactoryArgs NatSig := { natArgs with mixins := [c6Mixin] }

/-- C6 counterexample: the mixin defines `optimizer`, the base chain defines
`optimizer`, yet the produced class does NOT use the mixin's version — the
`policy_cls` body's own `optimizer` (source lines 148-153) sits first in the
method resolution order and shadows the mixin. -/
theorem mixin_not_preceding_for_shadowed_methods :
    dlookup (build_tf_policy c6Args c6DynMT).methodTable "optimizer" =
      some (MethodV.tmpl "optimizer") ∧
    some (MethodV.tmpl "optimizer") ≠ some (MethodV.user (1 : Nat) : MethodV NatSig) := by
  constructor
  · rfl
  · intro hc
    cases Option.some.inj hc

/-- C6 (amended): for every method name the produced class does not itself
define (not one of `policyClsOwnNames`), each mixin takes precedence over the
`DynamicTFPolicy` base: if any mixin defines the name, lookup on the produced
class returns the first defining mixin's method, whatever the base defines.
Method names the `policy_cls` body defines are shadowed instead. -/
theorem mixin_precedence_amended {S : Sig} (args : FactoryArgs S)
    (DynamicTFPolicyMT : Dict (MethodV S)) (nm : String) (v : MethodV S)
    (hnm : nm ∉ policyClsOwnNames)
    (hm : dlookup args.mixins.flatten nm = some v) :
    dlookup (build_tf_policy args DynamicTFPolicyMT).methodTable nm = some v := by
  have htable : (build_tf_policy args DynamicTFPolicyMT).methodTable =
      policyClsOwnTable S ++ (args.mixins.flatten ++ DynamicTFPolicyMT) := by
    simp [build_tf_policy, whileMixins_spec, foldr_new_base_eq_join_append]
  rw [htable, dlookup_append, dlookup_policyClsOwnTable_eq_none nm hnm, dlookup_append, hm]

/-- A mixin defining a method name `policy_cls` does not define. -/
def c6wMixin : Dict (MethodV NatSig) := [("compute_td_error", MethodV.user 3)]

/-- Factory arguments with the single mixin `c6wMixin`. -/
def c6wArgs : FactoryArgs NatSig := { natArgs with mixins := [c6wMixin] }

/-- C6 witness: a mixin method not shadowed by the class body wins over the
base chain's entry for the same name. -/
theorem mixin_precedence_amended_witness :
    dlookup (build_tf_policy c6wArgs [("compute_td_error", MethodV.user 9)]).methodTable
      "compute_td_error" = some (MethodV.user 3) :=
  mixin_precedence_amended c6wArgs [("compute_td_error", MethodV.user 9)]
    "compute_td_error" (MethodV.user 3) (by decide) rfl

/-! ## C8 -/

/-- C8: `build_tf_policy` drains the caller's mixins list in place — after
the call, the list object passed as `mixins` is empty. -/
theorem build_drains_mixins {S : Sig} (args : FactoryArgs S)
    (DynamicTFPolicyMT : Dict (MethodV S)) (h : args.mixins ≠ []) :
    (build_tf_policy args DynamicTFPolicyMT).mixinsAfter = [] := by
  simp [build_tf_policy, whileMixins_spec]

/-- C8 witness: a concrete non-empty mixins list is empty after the call. -/
theorem build_drains_mixins_witness :
    (build_tf_policy c6wArgs []).mixinsAfter = [] :=
  build_drains_mixins c6wArgs [] (by simp [c6wArgs, natArgs])

/-! ## C9 -/

/-- C9: the returned class's `__name__` and `__qualname__` attributes both
equal the `name` argument passed to the factory (source lines 197-198). -/
theorem build_sets_name_and_qualname {S : Sig} (args : FactoryArgs S)
    (DynamicTFPolicyMT : Dict (MethodV S)) :
    (build_tf_policy args DynamicTFPolicyMT).__name__ = args.name ∧
    (build_tf_policy args DynamicTFPolicyMT).__qualname__ = args.name := by
  constructor <;> rfl

/-! ## C10 -/

/-- C10: when `extra_learn_fetches_fn` is provided, the dict returned by
`extra_compute_grad_fetches` always contains `LEARNER_STATS_KEY`: it maps to
the empty dict when the callback's result omits the key, and to the
callback's value when the result includes it. -/
theorem grad_fetches_always_have_learner_stats {S : Sig} (args : FactoryArgs S)
    (B : BaseBehavior S) (self : PolicyState S)
    (f : PolicyState S → Dict (FetchVal S.Fetch))
    (h : args.extra_learn_fetches_fn = some f) :
    dlookup (policy_cls.extra_compute_grad_fetches args B self).1 LEARNER_STATS_KEY =
      some (match dlookup (f self) LEARNER_STATS_KEY with
            | some v => v
            | none => FetchVal.dict []) := by
  simp only [policy_cls.extra_compute_grad_fetches, h, dlookup_pyDictMerge]
  cases dlookup (f self) LEARNER_STATS_KEY <;> simp [dlookup, LEARNER_STATS_KEY]

/-- Factory arguments whose `extra_learn_fetches_fn` returns a dict that
omits `LEARNER_STATS_KEY`. -/
def c10Args : FactoryArgs NatSig :=
  { natArgs with extra_learn_fetches_fn := some (fun _ => [("td_error", FetchVal.tensor 3)]) }

/-- C10 witness: a callback result omitting the key still yields an entry
mapping `LEARNER_STATS_KEY` to the empty dict. -/
theorem grad_fetches_always_have_learner_stats_witness :
    dlookup (policy_cls.extra_compute_grad_fetches c10Args natB natSelf).1 LEARNER_STATS_KEY =
      some (FetchVal.dict []) := by
  have h := grad_fetches_always_have_learner_stats c10Args natB natSelf
    (fun _ => [("td_error", FetchVal.tensor 3)]) rfl
  rw [h]
  rfl

/-! ## C1 -/

/-- A mixin for C1 defining a method name the class body does not define. -/
def c1Mixin : Dict (MethodV NatSig) := [("update_kl", MethodV.user 1)]

/-- The base chain's table for C1: it resolves `update_kl` differently from
the mixin. -/
def c1DynMT : Dict (MethodV NatSig) := [("update_kl", MethodV.user 2)]

/-- Factory arguments with the single mixin `c1Mixin`. -/
def c1Args : FactoryArgs NatSig := { natArgs with mixins := [c1Mixin] }

/-- C1: `with_updates` with an empty override set does NOT return a class
behaviorally identical to the original.  `original_kwargs = locals().copy()`
(line 91) aliases the caller's mixins list, which the `while mixins` loop
(lines 93-98) drains via `pop()`; the re-invoked factory therefore sees an
empty mixins list, and the derived class resolves `update_kl` to the base's
method while the original class resolves it to the mixin's. -/
theorem with_updates_empty_not_identical :
    dlookup (build_tf_policy c1Args c1DynMT).methodTable "update_kl" =
      some (MethodV.user 1) ∧
    dlookup (with_updates_empty (build_tf_policy c1Args c1DynMT) c1DynMT).methodTable
      "update_kl" = some (MethodV.user 2) := by
  constructor <;> rfl
